import Mathlib

/-!
Shallow embedding of the Kontist SDK authentication core (`src/lib/auth.ts`)
and the parts of its data model used by the specification claims.

Conventions of the embedding:
* JavaScript truthiness on optional string parameters is modelled by `truthy`
  (absent values and the empty string are falsy, every other string is truthy).
* Promises are modelled by `PromiseState` with settle-once semantics:
  `attemptResolve` / `attemptReject` change a promise only while it is pending,
  exactly as `resolve` / `reject` behave on a JavaScript promise.
* `async` control flow is modelled by explicit state passing; the HTTP
  environment (responses, fetched challenges) is passed in as data.
* Machine integers do not occur in `auth.ts` except inside the SHA-256 used for
  the PKCE challenge, where 32-bit words are modelled as `Nat` reduced
  `% 4294967296` at every operation that can overflow.
-/

/-- JavaScript truthiness of an optional string argument: `undefined` and the
empty string are falsy. -/
def truthy : Option String → Bool
  | none => false
  | some s => !s.isEmpty

/-- OAuth2 token as produced by `ClientOAuth2.createToken`: the fields of the
token the SDK reads (`accessToken`, `refreshToken`, and the token type). -/
structure Token where
  accessToken : String
  refreshToken : Option String
  tokenType : Option String
deriving Repr, DecidableEq

/-- The errors thrown by `src/lib/auth.ts` (`./errors` module): the base
`KontistSDKError` carries an optional HTTP status and a message; the named
subclasses are the specific errors the auth core throws. -/
inductive AuthError where
  | kontistSDKError (status : Option Nat) (message : String)
  | userUnauthorizedError
  | challengeExpiredError
  | challengeDeniedError
  | mfaConfirmationCanceledError
deriving Repr, DecidableEq

/-- Settlement state of a JavaScript promise. -/
inductive PromiseState where
  | pending
  | resolved (token : Token)
  | rejected (error : AuthError)
deriving Repr, DecidableEq

/-- Calling `resolve` on a promise: settles it only if it is still pending. -/
def attemptResolve (p : PromiseState) (t : Token) : PromiseState :=
  match p with
  | .pending => .resolved t
  | _ => p

/-- Calling `reject` on a promise: settles it only if it is still pending. -/
def attemptReject (p : PromiseState) (e : AuthError) : PromiseState :=
  match p with
  | .pending => .rejected e
  | _ => p

/-- HTTP methods used by the auth core (`HttpMethod` in `./types`). -/
inductive HttpMethod where
  | GET
  | POST
deriving Repr, DecidableEq

/-- Status of an MFA challenge. Modelled from the spec data model
(`status ∈ {PENDING, VERIFIED, DENIED}`); the `ChallengeStatus` declaration
lives in `./types`, outside the provided sources, and `auth.ts` compares
against its `DENIED` and `VERIFIED` members. -/
inductive ChallengeStatus where
  | PENDING
  | VERIFIED
  | DENIED
deriving Repr, DecidableEq

/-- MFA challenge record: id, status and expiry timestamp. `expiresAt` is the
epoch timestamp that `new Date(challenge.expiresAt)` denotes. -/
structure Challenge where
  id : String
  status : ChallengeStatus
  expiresAt : Int
deriving Repr, DecidableEq

/-- Mutable state of an `Auth` instance: configuration, the token store
(`_token`), and the MFA polling state (`challengePollTimeoutId` is whether a
poll timer is currently scheduled, `rejectMFAConfirmation` is whether the
pending-rejection callback is set, `mfaPromise` is the promise returned by
`getMFAConfirmedToken`). -/
structure AuthState where
  baseUrl : String
  state : String
  verifier : Option String
  _token : Option Token
  challengePollTimeoutId : Bool
  rejectMFAConfirmation : Bool
  mfaPromise : PromiseState
deriving Repr, DecidableEq

/-- Options accepted by the `Auth` constructor (`ClientOpts` in `./types`,
restricted to the fields the constructor reads; `oauthClient` is omitted since
the claims concern the default client). -/
structure ClientOpts where
  clientId : String
  clientSecret : Option String
  redirectUri : String
  scopes : List String
  state : String
  verifier : Option String
deriving Repr, DecidableEq

/-- The `Auth` constructor: records verifier, baseUrl and state, and throws
`KontistSDKError` when both `verifier` and `clientSecret` are truthy. -/
def authConstructor (baseUrl : String) (opts : ClientOpts) : Except AuthError AuthState :=
  if truthy opts.verifier && truthy opts.clientSecret then
    .error (.kontistSDKError none
      "You can provide only one parameter from [verifier, clientSecret].")
  else
    .ok { baseUrl := baseUrl
          state := opts.state
          verifier := opts.verifier
          _token := none
          challengePollTimeoutId := false
          rejectMFAConfirmation := false
          mfaPromise := .pending }

/-- `setToken(accessToken, refreshToken?, tokenType?)`: dispatches on the JS
truthiness of the optional arguments exactly as the three `createToken`
overload calls in the source do, stores the token in `_token` and returns it. -/
def setToken (client : AuthState) (accessToken : String)
    (refreshToken : Option String) (tokenType : Option String) :
    AuthState × Token :=
  let token : Token :=
    if truthy tokenType && truthy refreshToken then
      { accessToken := accessToken, refreshToken := refreshToken, tokenType := tokenType }
    else if truthy refreshToken then
      { accessToken := accessToken, refreshToken := refreshToken, tokenType := none }
    else
      { accessToken := accessToken, refreshToken := none, tokenType := none }
  ({ client with _token := some token }, token)

/-- An HTTP request as issued by the shared `request` primitive. -/
structure ApiRequest where
  url : String
  method : HttpMethod
  authorization : String
  body : Option String
deriving Repr, DecidableEq

/-- An HTTP response as observed through `fetch`: status code, status text and
the value `response.json()` would produce (kept abstract as a string). -/
structure HttpResponse where
  status : Nat
  statusText : String
  jsonBody : String
deriving Repr, DecidableEq

/-- `response.ok` of the Fetch API: status in the inclusive range 200–299. -/
def responseOk (r : HttpResponse) : Bool :=
  200 ≤ r.status && r.status ≤ 299

/-- `new URL(path, baseUrl).href` for the relative API paths used by the SDK
(kept abstract as concatenation of base url and path). -/
def requestUrl (baseUrl path : String) : String :=
  baseUrl ++ path

/-- The response-handling tail of `request`: non-ok status throws
`KontistSDKError` with the status and status text, 204 resolves with no value,
any other ok status resolves with the parsed JSON body. -/
def handleResponse (r : HttpResponse) : Except AuthError (Option String) :=
  if !responseOk r then
    .error (.kontistSDKError (some r.status) r.statusText)
  else if r.status = 204 then
    .ok none
  else
    .ok (some r.jsonBody)

/-- The shared authenticated `request` primitive. Returns the list of HTTP
requests actually issued (empty when the call throws before `fetch`) together
with the outcome. With no current token it throws `UserUnauthorizedError`
before any request is sent; otherwise it issues one request carrying the
bearer token and handles the given response. -/
def request (token : Option Token) (baseUrl path : String)
    (method : HttpMethod) (body : Option String) (response : HttpResponse) :
    List ApiRequest × Except AuthError (Option String) :=
  match token with
  | none => ([], .error .userUnauthorizedError)
  | some t =>
      ([{ url := requestUrl baseUrl path
          method := method
          authorization := "Bearer " ++ t.accessToken
          body := body }],
       handleResponse response)

/-- `verifyDeviceChallenge` after its authenticated POST succeeded with a
response whose `token` field is `accessToken`: reads `refreshToken` from the
currently stored token (`this._token || {}`) and combines both via `setToken`. -/
def verifyDeviceChallenge (client : AuthState) (accessToken : String) :
    AuthState × Token :=
  let refreshToken : Option String :=
    match client._token with
    | some t => t.refreshToken
    | none => none
  setToken client accessToken refreshToken none

namespace MFA

/-- Path constant `MFA_CHALLENGE_PATH`. -/
def MFA_CHALLENGE_PATH : String := "/api/user/mfa/challenges"

/-- A request issued during a poll tick (path and method). -/
structure PollRequest where
  path : String
  method : HttpMethod
deriving Repr, DecidableEq

/-- Outcome of the authenticated GET that a poll tick performs first: either
the request threw (any error, including `UserUnauthorizedError` and HTTP
errors) or it returned the challenge record. -/
inductive FetchOutcome where
  | failure (error : AuthError)
  | success (challenge : Challenge)
deriving Repr, DecidableEq

/-- One execution of the async closure returned by `pollChallengeStatus`,
given the current time, the outcome of the challenge GET, and the `token`
field of the redemption response (used only in the VERIFIED branch, where the
redemption POST succeeds). Returns the updated state and the requests issued
by the tick. On a fetch failure the tick rejects immediately (and, as in the
source, does not clear the pending-rejection reference). Otherwise it clears
the reference, then checks expiry, then DENIED, then VERIFIED (redeeming the
challenge and storing the confirmed token via `setToken` with the access token
alone), and in the remaining PENDING case re-records the rejection callback
and schedules the next poll. -/
def pollChallengeStatusTick (now : Int) (outcome : FetchOutcome)
    (confirmedToken : String) (client : AuthState) :
    AuthState × List PollRequest :=
  match outcome with
  | .failure e =>
      ({ client with mfaPromise := attemptReject client.mfaPromise e }, [])
  | .success challenge =>
      let getReq : PollRequest :=
        { path := MFA_CHALLENGE_PATH ++ "/" ++ challenge.id, method := .GET }
      let client := { client with rejectMFAConfirmation := false }
      let hasExpired : Bool := challenge.expiresAt < now
      let wasDenied : Bool := challenge.status = ChallengeStatus.DENIED
      let wasVerified : Bool := challenge.status = ChallengeStatus.VERIFIED
      if hasExpired then
        ({ client with mfaPromise := attemptReject client.mfaPromise .challengeExpiredError },
         [getReq])
      else if wasDenied then
        ({ client with mfaPromise := attemptReject client.mfaPromise .challengeDeniedError },
         [getReq])
      else if wasVerified then
        let postReq : PollRequest :=
          { path := MFA_CHALLENGE_PATH ++ "/" ++ challenge.id ++ "/token", method := .POST }
        let st := setToken client confirmedToken none none
        ({ st.1 with mfaPromise := attemptResolve st.1.mfaPromise st.2 },
         [getReq, postReq])
      else
        ({ client with rejectMFAConfirmation := true, challengePollTimeoutId := true },
         [getReq])

/-- `cancelMFAConfirmation`: always clears the poll timer (`clearTimeout`),
then, if the rejection callback is set, rejects the pending promise with
`MFAConfirmationCanceledError`. The callback reference itself is not cleared,
as in the source. -/
def cancelMFAConfirmation (client : AuthState) : AuthState :=
  let client := { client with challengePollTimeoutId := false }
  if client.rejectMFAConfirmation then
    { client with
        mfaPromise := attemptReject client.mfaPromise .mfaConfirmationCanceledError }
  else
    client

/-- Environment data consumed by one scheduled poll tick. -/
structure TickInput where
  now : Int
  outcome : FetchOutcome
  confirmedToken : String

/-- A scheduled timer firing: the tick callback runs only if the timer is
still scheduled (a cleared timer never fires); running it consumes the timer. -/
def fireScheduledPoll (input : TickInput) (client : AuthState) :
    AuthState × List PollRequest :=
  if client.challengePollTimeoutId then
    pollChallengeStatusTick input.now input.outcome input.confirmedToken
      { client with challengePollTimeoutId := false }
  else
    (client, [])

/-- Run a sequence of scheduled-timer firings, collecting all requests issued. -/
def runScheduledPolls : List TickInput → AuthState → AuthState × List PollRequest
  | [], client => (client, [])
  | input :: rest, client =>
      let step := fireScheduledPoll input client
      let restRun := runScheduledPolls rest step.1
      (restRun.1, step.2 ++ restRun.2)

end MFA

/-! ### SHA-256 and the PKCE code challenge of `getAuthUri`

`getAuthUri` computes
`btoa(String.fromCharCode(...sha256.array(verifier))).split("=")[0]
  .replace("+", "-").replace("/", "_")`.
SHA-256 (FIPS 180-4) is embedded below over `Nat` with 32-bit words reduced
`% 4294967296`; bytes are `Nat` values below 256. -/

namespace SHA256

/-- 32-bit rotate right. -/
def rotr (n x : Nat) : Nat :=
  ((x >>> n) ||| (x <<< (32 - n))) % 4294967296

/-- Logical shift right. -/
def shr (n x : Nat) : Nat := x >>> n

/-- 32-bit bitwise complement. -/
def compl32 (x : Nat) : Nat := x ^^^ 4294967295

def bigSigma0 (x : Nat) : Nat := rotr 2 x ^^^ rotr 13 x ^^^ rotr 22 x

def bigSigma1 (x : Nat) : Nat := rotr 6 x ^^^ rotr 11 x ^^^ rotr 25 x

def smallSigma0 (x : Nat) : Nat := rotr 7 x ^^^ rotr 18 x ^^^ shr 3 x

def smallSigma1 (x : Nat) : Nat := rotr 17 x ^^^ rotr 19 x ^^^ shr 10 x

def ch (x y z : Nat) : Nat := (x &&& y) ^^^ (compl32 x &&& z)

def maj (x y z : Nat) : Nat := (x &&& y) ^^^ (x &&& z) ^^^ (y &&& z)

/-- Round constants K (FIPS 180-4, in decimal). -/
def K : List Nat :=
  [1116352408, 1899447441, 3049323471, 3921009573, 961987163,
   1508970993, 2453635748, 2870763221, 3624381080, 310598401,
   607225278, 1426881987, 1925078388, 2162078206, 2614888103,
   3248222580, 3835390401, 4022224774, 264347078, 604807628,
   770255983, 1249150122, 1555081692, 1996064986, 2554220882,
   2821834349, 2952996808, 3210313671, 3336571891, 3584528711,
   113926993, 338241895, 666307205, 773529912, 1294757372,
   1396182291, 1695183700, 1986661051, 2177026350, 2456956037,
   2730485921, 2820302411, 3259730800, 3345764771, 3516065817,
   3600352804, 4094571909, 275423344, 430227734, 506948616,
   659060556, 883997877, 958139571, 1322822218, 1537002063,
   1747873779, 1955562222, 2024104815, 2227730452, 2361852424,
   2428436474, 2756734187, 3204031479, 3329325298]

/-- Initial hash values (FIPS 180-4, in decimal). -/
def H0 : List Nat :=
  [1779033703, 3144134277, 1013904242, 2773480762,
   1359893119, 2600822924, 528734635, 1541459225]

/-- Big-endian 8-byte encoding of a natural number. -/
def bigEndian8 (n : Nat) : List Nat :=
  [(n >>> 56) % 256, (n >>> 48) % 256, (n >>> 40) % 256, (n >>> 32) % 256,
   (n >>> 24) % 256, (n >>> 16) % 256, (n >>> 8) % 256, n % 256]

/-- SHA-256 padding: append 0x80, zeros to 56 mod 64, then the 64-bit
big-endian bit length. -/
def padMessage (msg : List Nat) : List Nat :=
  let L := msg.length
  let zeros := (64 + 56 - (L + 1) % 64) % 64
  msg ++ [0x80] ++ List.replicate zeros 0 ++ bigEndian8 (L * 8)

/-- Group bytes into big-endian 32-bit words. -/
def bytesToWords : List Nat → List Nat
  | b0 :: b1 :: b2 :: b3 :: rest =>
      (b0 * 16777216 + b1 * 65536 + b2 * 256 + b3) :: bytesToWords rest
  | _ => []

/-- Extend the 16 message-schedule words to 64 (48 extension steps). -/
def extendWords : Nat → List Nat → List Nat
  | 0, w => w
  | fuel + 1, w =>
      let i := w.length
      let next := (smallSigma1 (w.getD (i - 2) 0) + w.getD (i - 7) 0
        + smallSigma0 (w.getD (i - 15) 0) + w.getD (i - 16) 0) % 4294967296
      extendWords fuel (w ++ [next])

/-- One compression round on the working variables `[a,b,c,d,e,f,g,h]`. -/
def roundStep (vars : List Nat) (kw : Nat × Nat) : List Nat :=
  match vars with
  | [a, b, c, d, e, f, g, h] =>
      let t1 := (h + bigSigma1 e + ch e f g + kw.1 + kw.2) % 4294967296
      let t2 := (bigSigma0 a + maj a b c) % 4294967296
      [(t1 + t2) % 4294967296, a, b, c, (d + t1) % 4294967296, e, f, g]
  | other => other

/-- Compression of one 64-byte block into the intermediate hash. -/
def compress (hs : List Nat) (block : List Nat) : List Nat :=
  let w := extendWords 48 (bytesToWords block)
  let final := (K.zip w).foldl roundStep hs
  (hs.zip final).map (fun p => (p.1 + p.2) % 4294967296)

/-- Process `n` 64-byte blocks of the padded message. -/
def processBlocks : Nat → List Nat → List Nat → List Nat
  | 0, _, hs => hs
  | n + 1, bytes, hs => processBlocks n (bytes.drop 64) (compress hs (bytes.take 64))

/-- Big-endian bytes of one 32-bit word. -/
def wordBytes (w : Nat) : List Nat :=
  [(w >>> 24) % 256, (w >>> 16) % 256, (w >>> 8) % 256, w % 256]

/-- SHA-256 digest (32 bytes) of a byte sequence, as `sha256.array` returns it. -/
def sha256Bytes (msg : List Nat) : List Nat :=
  let padded := padMessage msg
  (processBlocks (padded.length / 64) padded H0).foldr
    (fun w acc => wordBytes w ++ acc) []

end SHA256

/-- The base64 alphabet. -/
def base64Alphabet : List Char :=
  "ABCDEFGHIJKLMNOPQRSTUVWXYZabcdefghijklmnopqrstuvwxyz0123456789+/".data

/-- Character of a 6-bit group. -/
def b64Char (n : Nat) : Char := base64Alphabet.getD n 'A'

/-- `btoa` on a byte string: standard base64 with `=` padding. -/
def base64Encode : List Nat → List Char
  | b0 :: b1 :: b2 :: rest =>
      b64Char (b0 / 4) :: b64Char (b0 % 4 * 16 + b1 / 16)
        :: b64Char (b1 % 16 * 4 + b2 / 64) :: b64Char (b2 % 64)
        :: base64Encode rest
  | [b0, b1] =>
      [b64Char (b0 / 4), b64Char (b0 % 4 * 16 + b1 / 16), b64Char (b1 % 16 * 4), '=']
  | [b0] =>
      [b64Char (b0 / 4), b64Char (b0 % 4 * 16), '=', '=']
  | [] => []

/-- `s.split("=")[0]`: the prefix before the first `=`. -/
def splitEqHead (s : List Char) : List Char := s.takeWhile (· ≠ '=')

/-- JavaScript `String.prototype.replace` with a string pattern: replaces only
the FIRST occurrence of the (single-character) pattern. -/
def replaceFirstChar : List Char → Char → Char → List Char
  | [], _, _ => []
  | c :: rest, pat, repl =>
      if c = pat then repl :: rest else c :: replaceFirstChar rest pat repl

/-- Replacement of every occurrence of a character. -/
def replaceAllChar (s : List Char) (pat repl : Char) : List Char :=
  s.map fun c => if c = pat then repl else c

/-- UTF-8 bytes of an ASCII string (`js-sha256` hashes the UTF-8 encoding;
for the ASCII inputs considered here these are the code points). -/
def stringBytes (s : String) : List Nat := s.data.map Char.toNat

/-- The `code_challenge` value `getAuthUri` puts in the authorization URI for
a configured verifier: base64 of the SHA-256 digest, split at the first `=`,
with the first `+` replaced by `-` and the first `/` replaced by `_`. -/
def codeChallenge (verifier : String) : String :=
  String.mk (replaceFirstChar (replaceFirstChar
    (splitEqHead (base64Encode (SHA256.sha256Bytes (stringBytes verifier))))
    '+' '-') '/' '_')

/-- Modelled from the spec: the PKCE challenge as base64url(SHA-256(verifier))
— base64 with all padding `=` removed and EVERY `+` replaced by `-` and EVERY
`/` replaced by `_` (RFC 7636). The refinement target `codeChallenge` is
compared against. -/
def specCodeChallenge (verifier : String) : String :=
  String.mk (replaceAllChar (replaceAllChar
    ((base64Encode (SHA256.sha256Bytes (stringBytes verifier))).filter (· ≠ '='))
    '+' '-') '/' '_')

/-! ### Sample values used by witnesses -/

/-- A sample stored token carrying a refresh token. -/
def sampleToken : Token :=
  { accessToken := "access0", refreshToken := some "refresh0", tokenType := none }

/-- A sample authenticated client with a pending MFA promise. -/
def sampleClient : AuthState :=
  { baseUrl := "https://api.kontist.com"
    state := "state0"
    verifier := none
    _token := some sampleToken
    challengePollTimeoutId := false
    rejectMFAConfirmation := false
    mfaPromise := .pending }

/-! ### Claim theorems -/

/-- Claim C1: the claim states that for every configured PKCE verifier the
`code_challenge` equals base64url(SHA-256(verifier)) with every `+` replaced
by `-` and every `/` replaced by `_`. The source replaces only the FIRST
occurrence of each (JavaScript `String.replace` with a string pattern), so the
challenge diverges from base64url whenever the digest's base64 has a repeated
`+` or `/`: for verifier `"a"` the second `/` survives in the code's output. -/
theorem getAuthUri_code_challenge_not_base64url :
    codeChallenge "a" = "ypeBEsobvcr6wjGzmiPcTaeG7_gUfE5yuYB3ha/uSLs" ∧
    specCodeChallenge "a" = "ypeBEsobvcr6wjGzmiPcTaeG7_gUfE5yuYB3ha_uSLs" ∧
    codeChallenge "a" ≠ specCodeChallenge "a" := by
  refine ⟨rfl, rfl, ?_⟩
  decide

/-- Claim C2 counterexample: with a stored token carrying refresh token
`"refresh0"`, a poll tick that observes a VERIFIED, unexpired challenge stores
the confirmed access token WITHOUT the previously stored refresh token
(`setToken` is called with the access token alone), refuting the claim that
the existing refresh token is reused. -/
theorem pollTick_verified_drops_refresh_token :
    (MFA.pollChallengeStatusTick 0
        (.success { id := "ch1", status := .VERIFIED, expiresAt := 1000 })
        "confirmedAccess" sampleClient).1._token =
      some { accessToken := "confirmedAccess", refreshToken := none, tokenType := none } ∧
    (MFA.pollChallengeStatusTick 0
        (.success { id := "ch1", status := .VERIFIED, expiresAt := 1000 })
        "confirmedAccess" sampleClient).1._token ≠
      some { accessToken := "confirmedAccess", refreshToken := some "refresh0", tokenType := none } := by
  decide

/-- Claim C2 (amended): when a poll observes status VERIFIED on an unexpired
challenge, the controller performs the token-redemption POST and stores the
confirmed access token as a token with no refresh token (the previously stored
refresh token is not carried over), then resolves the pending operation with
that token. -/
theorem pollTick_verified_stores_access_token_alone (client : AuthState)
    (now : Int) (challenge : Challenge) (confirmedToken : String)
    (hexp : ¬ challenge.expiresAt < now)
    (hver : challenge.status = ChallengeStatus.VERIFIED)
    (hpend : client.mfaPromise = .pending) :
    (MFA.pollChallengeStatusTick now (.success challenge) confirmedToken client).1._token =
      some { accessToken := confirmedToken, refreshToken := none, tokenType := none } ∧
    (MFA.pollChallengeStatusTick now (.success challenge) confirmedToken client).1.mfaPromise =
      .resolved { accessToken := confirmedToken, refreshToken := none, tokenType := none } ∧
    (MFA.pollChallengeStatusTick now (.success challenge) confirmedToken client).2 =
      [{ path := MFA.MFA_CHALLENGE_PATH ++ "/" ++ challenge.id, method := .GET },
       { path := MFA.MFA_CHALLENGE_PATH ++ "/" ++ challenge.id ++ "/token", method := .POST }] := by
  simp [MFA.pollChallengeStatusTick, hexp, hver, hpend, setToken, truthy, attemptResolve]

/-- Witness for the amended claim C2 at concrete inputs. -/
theorem pollTick_verified_stores_access_token_alone_witness :
    (MFA.pollChallengeStatusTick 0
        (.success { id := "ch1", status := .VERIFIED, expiresAt := 1000 })
        "confirmedAccess" sampleClient).1._token =
      some { accessToken := "confirmedAccess", refreshToken := none, tokenType := none } ∧
    (MFA.pollChallengeStatusTick 0
        (.success { id := "ch1", status := .VERIFIED, expiresAt := 1000 })
        "confirmedAccess" sampleClient).1.mfaPromise =
      .resolved { accessToken := "confirmedAccess", refreshToken := none, tokenType := none } ∧
    (MFA.pollChallengeStatusTick 0
        (.success { id := "ch1", status := .VERIFIED, expiresAt := 1000 })
        "confirmedAccess" sampleClient).2 =
      [{ path := MFA.MFA_CHALLENGE_PATH ++ "/ch1", method := .GET },
       { path := MFA.MFA_CHALLENGE_PATH ++ "/ch1/token", method := .POST }] :=
  pollTick_verified_stores_access_token_alone sampleClient 0
    { id := "ch1", status := .VERIFIED, expiresAt := 1000 } "confirmedAccess"
    (by decide) rfl rfl

/-- Claim C3: a successful `verifyDeviceChallenge` while a token with a
(non-empty) refresh token is stored returns the combination of the response's
access token with the stored refresh token, and stores that combined token. -/
theorem verifyDeviceChallenge_combines_refresh (client : AuthState) (t : Token)
    (r accessToken : String) (htok : client._token = some t)
    (href : t.refreshToken = some r) (hne : r ≠ "") :
    (verifyDeviceChallenge client accessToken).2 =
      { accessToken := accessToken, refreshToken := some r, tokenType := none } ∧
    (verifyDeviceChallenge client accessToken).1._token =
      some { accessToken := accessToken, refreshToken := some r, tokenType := none } := by
  have hr : r.isEmpty = false := by
    cases hr2 : r.isEmpty
    · rfl
    · exact absurd ((String.isEmpty_iff r).mp hr2) hne
  simp [verifyDeviceChallenge, htok, href, setToken, truthy, hr]

/-- Witness for claim C3 at concrete inputs. -/
theorem verifyDeviceChallenge_combines_refresh_witness :
    (verifyDeviceChallenge sampleClient "elevatedAccess").2 =
      { accessToken := "elevatedAccess", refreshToken := some "refresh0", tokenType := none } ∧
    (verifyDeviceChallenge sampleClient "elevatedAccess").1._token =
      some { accessToken := "elevatedAccess", refreshToken := some "refresh0", tokenType := none } :=
  verifyDeviceChallenge_combines_refresh sampleClient sampleToken "refresh0"
    "elevatedAccess" rfl rfl (by decide)

/-- Claim C4: a poll tick on a challenge whose `expiresAt` precedes the
current time rejects the pending confirmation with `ChallengeExpiredError`,
and the only request issued by the tick is the challenge GET — in particular
no token-redemption POST is issued, whatever the challenge status is (expiry
is checked before the DENIED and VERIFIED branches). -/
theorem pollTick_expired_rejects_without_redemption (client : AuthState)
    (now : Int) (challenge : Challenge) (confirmedToken : String)
    (hexp : challenge.expiresAt < now) (hpend : client.mfaPromise = .pending) :
    (MFA.pollChallengeStatusTick now (.success challenge) confirmedToken client).1.mfaPromise =
      .rejected .challengeExpiredError ∧
    (MFA.pollChallengeStatusTick now (.success challenge) confirmedToken client).2 =
      [{ path := MFA.MFA_CHALLENGE_PATH ++ "/" ++ challenge.id, method := .GET }] := by
  simp [MFA.pollChallengeStatusTick, hexp, hpend, attemptReject]

/-- Witness for claim C4: a challenge that is both VERIFIED and expired is
rejected as expired and no redemption POST is issued. -/
theorem pollTick_expired_rejects_without_redemption_witness :
    (MFA.pollChallengeStatusTick 10
        (.success { id := "ch2", status := .VERIFIED, expiresAt := 3 })
        "tok" sampleClient).1.mfaPromise = .rejected .challengeExpiredError ∧
    (MFA.pollChallengeStatusTick 10
        (.success { id := "ch2", status := .VERIFIED, expiresAt := 3 })
        "tok" sampleClient).2 =
      [{ path := MFA.MFA_CHALLENGE_PATH ++ "/ch2", method := .GET }] :=
  pollTick_expired_rejects_without_redemption sampleClient 10
    { id := "ch2", status := .VERIFIED, expiresAt := 3 } "tok" (by decide) rfl

/-- Claim C5: for every path, method, body and response environment, the
shared `request` primitive invoked with no stored token rejects with
`UserUnauthorizedError` and issues no HTTP request at all. -/
theorem request_without_token_rejects_unauthorized (baseUrl path : String)
    (method : HttpMethod) (body : Option String) (response : HttpResponse) :
    request none baseUrl path method body response =
      ([], .error .userUnauthorizedError) := rfl

/-- Claim C6: response handling of the shared `request` primitive: a non-2xx
status rejects with the error carrying that status code and status text, a 204
status resolves with no value, and any other 2xx status resolves with the
parsed JSON body. -/
theorem request_response_handling (t : Token) (baseUrl path : String)
    (method : HttpMethod) (body : Option String) (response : HttpResponse) :
    (¬ (200 ≤ response.status ∧ response.status ≤ 299) →
      (request (some t) baseUrl path method body response).2 =
        .error (.kontistSDKError (some response.status) response.statusText)) ∧
    (response.status = 204 →
      (request (some t) baseUrl path method body response).2 = .ok none) ∧
    (200 ≤ response.status → response.status ≤ 299 → response.status ≠ 204 →
      (request (some t) baseUrl path method body response).2 =
        .ok (some response.jsonBody)) := by
  refine ⟨fun h => ?_, fun h => ?_, fun h1 h2 h3 => ?_⟩
  · have hok : responseOk response = false := by
      simp [responseOk]
      omega
    simp [request, handleResponse, hok]
  · have hok : responseOk response = true := by
      simp [responseOk, h]
    simp [request, handleResponse, hok, h]
  · have hok : responseOk response = true := by
      simp [responseOk, h1, h2]
    simp [request, handleResponse, hok, h3]

/-- Witness for claim C6 at three concrete responses (404, 204, 200). -/
theorem request_response_handling_witness :
    (request (some sampleToken) "https://api.kontist.com" "/p" .GET none
        { status := 404, statusText := "Not Found", jsonBody := "e" }).2 =
      .error (.kontistSDKError (some 404) "Not Found") ∧
    (request (some sampleToken) "https://api.kontist.com" "/p" .GET none
        { status := 204, statusText := "No Content", jsonBody := "" }).2 = .ok none ∧
    (request (some sampleToken) "https://api.kontist.com" "/p" .GET none
        { status := 200, statusText := "OK", jsonBody := "body" }).2 =
      .ok (some "body") :=
  ⟨(request_response_handling sampleToken "https://api.kontist.com" "/p" .GET none
      { status := 404, statusText := "Not Found", jsonBody := "e" }).1 (by decide),
   (request_response_handling sampleToken "https://api.kontist.com" "/p" .GET none
      { status := 204, statusText := "No Content", jsonBody := "" }).2.1 rfl,
   (request_response_handling sampleToken "https://api.kontist.com" "/p" .GET none
      { status := 200, statusText := "OK", jsonBody := "body" }).2.2 (by decide)
      (by decide) (by decide)⟩

/-- Claim C7: constructing `Auth` with both a non-empty verifier and a
non-empty client secret throws the configuration `KontistSDKError`; with at
most one of them supplied the constructor succeeds (returns the configured
state, raising no error). -/
theorem constructor_verifier_secret_exclusive :
    (∀ (baseUrl clientId redirectUri st v cs : String) (scopes : List String),
      v ≠ "" → cs ≠ "" →
      authConstructor baseUrl
        { clientId := clientId, clientSecret := some cs, redirectUri := redirectUri,
          scopes := scopes, state := st, verifier := some v } =
        .error (.kontistSDKError none
          "You can provide only one parameter from [verifier, clientSecret].")) ∧
    (∀ (baseUrl : String) (opts : ClientOpts),
      opts.verifier = none ∨ opts.clientSecret = none →
      authConstructor baseUrl opts =
        .ok { baseUrl := baseUrl, state := opts.state, verifier := opts.verifier,
              _token := none, challengePollTimeoutId := false,
              rejectMFAConfirmation := false, mfaPromise := .pending }) := by
  constructor
  · intro baseUrl clientId redirectUri st v cs scopes hv hcs
    have hv2 : v.isEmpty = false := by
      cases h : v.isEmpty
      · rfl
      · exact absurd ((String.isEmpty_iff v).mp h) hv
    have hcs2 : cs.isEmpty = false := by
      cases h : cs.isEmpty
      · rfl
      · exact absurd ((String.isEmpty_iff cs).mp h) hcs
    simp [authConstructor, truthy, hv2, hcs2]
  · intro baseUrl opts h
    rcases h with h | h <;> simp [authConstructor, truthy, h]

/-- Witness for claim C7: both directions at concrete option values. -/
theorem constructor_verifier_secret_exclusive_witness :
    authConstructor "https://api.kontist.com"
      { clientId := "cid", clientSecret := some "secret0", redirectUri := "https://app",
        scopes := ["transactions"], state := "st", verifier := some "verif0" } =
      .error (.kontistSDKError none
        "You can provide only one parameter from [verifier, clientSecret].") ∧
    authConstructor "https://api.kontist.com"
      { clientId := "cid", clientSecret := none, redirectUri := "https://app",
        scopes := ["transactions"], state := "st", verifier := some "verif0" } =
      .ok { baseUrl := "https://api.kontist.com", state := "st",
            verifier := some "verif0", _token := none,
            challengePollTimeoutId := false, rejectMFAConfirmation := false,
            mfaPromise := .pending } :=
  ⟨constructor_verifier_secret_exclusive.1 "https://api.kontist.com" "cid"
      "https://app" "st" "verif0" "secret0" ["transactions"] (by decide) (by decide),
   constructor_verifier_secret_exclusive.2 "https://api.kontist.com"
      { clientId := "cid", clientSecret := none, redirectUri := "https://app",
        scopes := ["transactions"], state := "st", verifier := some "verif0" }
      (Or.inr rfl)⟩


/-- Rejecting an already-settled promise does not change it. -/
theorem attemptReject_of_ne_pending (p : PromiseState) (e : AuthError)
    (h : p ≠ .pending) : attemptReject p e = p := by
  cases p <;> simp_all [attemptReject]

/-- Resolving an already-settled promise does not change it. -/
theorem attemptResolve_of_ne_pending (p : PromiseState) (t : Token)
    (h : p ≠ .pending) : attemptResolve p t = p := by
  cases p <;> simp_all [attemptResolve]

/-- `cancelMFAConfirmation` never changes an already-settled promise (its only
settlement attempt goes through `attemptReject`). -/
theorem cancel_preserves_settled (s : AuthState) (h : s.mfaPromise ≠ .pending) :
    (MFA.cancelMFAConfirmation s).mfaPromise = s.mfaPromise := by
  cases hr : s.rejectMFAConfirmation <;>
    simp [MFA.cancelMFAConfirmation, hr, attemptReject_of_ne_pending _ _ h]

/-- A poll tick never changes an already-settled promise. -/
theorem pollTick_preserves_settled (s : AuthState) (now : Int)
    (outcome : MFA.FetchOutcome) (confirmedToken : String)
    (h : s.mfaPromise ≠ .pending) :
    (MFA.pollChallengeStatusTick now outcome confirmedToken s).1.mfaPromise =
      s.mfaPromise := by
  cases outcome with
  | failure e =>
      simp [MFA.pollChallengeStatusTick, attemptReject_of_ne_pending _ _ h]
  | success c =>
      by_cases hexp : c.expiresAt < now
      · simp [MFA.pollChallengeStatusTick, hexp, attemptReject_of_ne_pending _ _ h]
      · cases hst : c.status <;>
          simp [MFA.pollChallengeStatusTick, hexp, hst, setToken,
            attemptReject_of_ne_pending _ _ h, attemptResolve_of_ne_pending _ _ h]

/-- Firing scheduled polls on a state whose poll timer is cleared does nothing:
a tick only runs from a scheduled timer, and only a tick schedules a timer. -/
theorem runScheduledPolls_timer_cleared (inputs : List MFA.TickInput)
    (client : AuthState) (h : client.challengePollTimeoutId = false) :
    MFA.runScheduledPolls inputs client = (client, []) := by
  induction inputs with
  | nil => rfl
  | cons input rest ih =>
      simp [MFA.runScheduledPolls, MFA.fireScheduledPoll, h, ih]

/-- Claim C8: `cancelMFAConfirmation` always clears the scheduled poll timer;
when a poll is outstanding (rejection callback set, promise pending) it
rejects the pending confirmation with `MFAConfirmationCanceledError`; after a
cancel no scheduled poll ever fires again (any sequence of timer firings
issues no request and changes nothing); and with no active poll it is a no-op
that changes no state and raises no error. -/
theorem cancelMFAConfirmation_spec (client : AuthState) :
    (MFA.cancelMFAConfirmation client).challengePollTimeoutId = false ∧
    (client.rejectMFAConfirmation = true → client.mfaPromise = .pending →
      (MFA.cancelMFAConfirmation client).mfaPromise =
        .rejected .mfaConfirmationCanceledError) ∧
    (∀ inputs : List MFA.TickInput,
      MFA.runScheduledPolls inputs (MFA.cancelMFAConfirmation client) =
        (MFA.cancelMFAConfirmation client, [])) ∧
    (client.rejectMFAConfirmation = false → client.challengePollTimeoutId = false →
      MFA.cancelMFAConfirmation client = client) := by
  refine ⟨?_, ?_, ?_, ?_⟩
  · cases hr : client.rejectMFAConfirmation <;>
      simp [MFA.cancelMFAConfirmation, hr]
  · intro h1 h2
    simp [MFA.cancelMFAConfirmation, h1, h2, attemptReject]
  · intro inputs
    apply runScheduledPolls_timer_cleared
    cases hr : client.rejectMFAConfirmation <;>
      simp [MFA.cancelMFAConfirmation, hr]
  · intro h1 h2
    cases client
    simp_all [MFA.cancelMFAConfirmation]

/-- A client with an outstanding scheduled poll (timer set, callback set). -/
def pollingClient : AuthState :=
  { sampleClient with rejectMFAConfirmation := true, challengePollTimeoutId := true }

/-- Witness for claim C8: all four parts at concrete clients — cancelling an
outstanding poll, no further poll firing after the cancel, and the no-op case
on an idle client. -/
theorem cancelMFAConfirmation_spec_witness :
    (MFA.cancelMFAConfirmation pollingClient).challengePollTimeoutId = false ∧
    (MFA.cancelMFAConfirmation pollingClient).mfaPromise =
      .rejected .mfaConfirmationCanceledError ∧
    MFA.runScheduledPolls
      [{ now := 0, outcome := .failure .userUnauthorizedError, confirmedToken := "t" }]
      (MFA.cancelMFAConfirmation pollingClient) =
      (MFA.cancelMFAConfirmation pollingClient, []) ∧
    MFA.cancelMFAConfirmation sampleClient = sampleClient :=
  ⟨(cancelMFAConfirmation_spec pollingClient).1,
   (cancelMFAConfirmation_spec pollingClient).2.1 rfl rfl,
   (cancelMFAConfirmation_spec pollingClient).2.2.1
     [{ now := 0, outcome := .failure .userUnauthorizedError, confirmedToken := "t" }],
   (cancelMFAConfirmation_spec sampleClient).2.2.2 rfl rfl⟩

/-- Claim C9: a `cancel` racing with a resolving poll tick cannot double-settle
the pending confirmation: once the tick has settled the promise, a subsequent
`cancelMFAConfirmation` leaves the settled promise unchanged; and a tick run
after the promise is already settled does not change it either — every
settlement attempt on a settled promise is a no-op. -/
theorem pollTick_cancel_settles_at_most_once (client : AuthState) (now : Int)
    (outcome : MFA.FetchOutcome) (confirmedToken : String) :
    ((MFA.pollChallengeStatusTick now outcome confirmedToken client).1.mfaPromise ≠
        .pending →
      (MFA.cancelMFAConfirmation
          (MFA.pollChallengeStatusTick now outcome confirmedToken client).1).mfaPromise =
        (MFA.pollChallengeStatusTick now outcome confirmedToken client).1.mfaPromise) ∧
    (client.mfaPromise ≠ .pending →
      (MFA.pollChallengeStatusTick now outcome confirmedToken client).1.mfaPromise =
        client.mfaPromise) :=
  ⟨fun h => cancel_preserves_settled _ h,
   fun h => pollTick_preserves_settled client now outcome confirmedToken h⟩

/-- A client whose MFA confirmation is already settled. -/
def settledClient : AuthState :=
  { sampleClient with mfaPromise := .rejected .challengeDeniedError }

/-- Witness for claim C9: a tick that rejects an expired challenge, followed
by a cancel that leaves the settled promise unchanged; and a tick on an
already-settled promise changing nothing. -/
theorem pollTick_cancel_settles_at_most_once_witness :
    (MFA.cancelMFAConfirmation
        (MFA.pollChallengeStatusTick 0
          (.success { id := "ch3", status := .PENDING, expiresAt := -1 })
          "t" sampleClient).1).mfaPromise =
      (MFA.pollChallengeStatusTick 0
          (.success { id := "ch3", status := .PENDING, expiresAt := -1 })
          "t" sampleClient).1.mfaPromise ∧
    (MFA.pollChallengeStatusTick 0
        (.success { id := "ch3", status := .PENDING, expiresAt := -1 })
        "t" settledClient).1.mfaPromise = settledClient.mfaPromise :=
  ⟨(pollTick_cancel_settles_at_most_once sampleClient 0
      (.success { id := "ch3", status := .PENDING, expiresAt := -1 }) "t").1
      (by decide),
   (pollTick_cancel_settles_at_most_once settledClient 0
      (.success { id := "ch3", status := .PENDING, expiresAt := -1 }) "t").2
      (by decide)⟩

/-- Claim C10: `setToken` called with an access token and a token type but no
refresh token discards the token type: the result (both the stored state and
the returned token) is exactly that of calling `setToken` with the access
token alone, and the constructed token carries neither refresh token nor
token type. -/
theorem setToken_type_without_refresh_ignored (client : AuthState)
    (accessToken tokenType : String) :
    setToken client accessToken none (some tokenType) =
      setToken client accessToken none none ∧
    (setToken client accessToken none (some tokenType)).2 =
      { accessToken := accessToken, refreshToken := none, tokenType := none } := by
  simp [setToken, truthy]
